import Mathlib

/-!
Verification of the action-dispatch lifecycle described by the Kiss
documentation site (kissforreact.org). The repository holds only the
documentation of the Kiss state-management library, not the library
implementation itself, so the dispatch core below is modelled from the
design-level contract that the documentation states, and every theorem is
checked against that model.
-/

namespace Kiss

/-- Modelled from the spec: the result of a `wrapError` or `globalWrapError`
hook of the missing Kiss store implementation. The hook may keep the error
unaltered (return nothing or the same error), replace it with another error,
or return the sentinel swallow value (`null`) so that no error is reported. -/
inductive WrapResult (E : Type) where
  | keep : WrapResult E
  | replace : E → WrapResult E
  | swallow : WrapResult E

/-- Modelled from the spec: a computation returned by one of the lifecycle
hooks of the missing Kiss store implementation. `pending` records whether the
hook returned a pending computation (a Promise), making the action
asynchronous; `val` is the value the computation eventually settles to. -/
structure Comp (α : Type) where
  pending : Bool
  val : α

/-- Modelled from the spec: an action of the missing Kiss store
implementation, as a closed capability interface. `abortDispatch` decides
whether the dispatch is aborted before anything runs; `before` runs before
the reducer and may throw; `reduce` may throw or return an optional new state
(`none` meaning no change); `after` always runs last and is synchronous;
`wrapError` may replace or swallow errors thrown by `before` or `reduce`. -/
structure Action (S E : Type) where
  abortDispatch : S → Bool
  before : S → Comp (Except E Unit)
  reduce : S → Comp (Except E (Option S))
  after : Except E Unit
  wrapError : E → WrapResult E

/-- Modelled from the spec: the store configuration of the missing Kiss store
implementation, restricted to the two error-pipeline collaborators:
`globalWrapError` runs after the local `wrapError` of the action, and
`errorObserver` then decides whether the surviving error is rethrown
(`true`) or swallowed (`false`). -/
structure StoreConfig (S E : Type) where
  globalWrapError : E → WrapResult E
  errorObserver : E → Bool

/-- Modelled from the spec: an observable event of one dispatch of the
missing Kiss store implementation, used to trace which lifecycle hooks and
error-pipeline stages actually ran, and in which order. -/
inductive Event where
  | beforeCalled : Event
  | reduceCalled : Event
  | afterCalled : Event
  | wrapErrorCalled : Event
  | globalWrapErrorCalled : Event
  | errorObserverCalled : Event
  deriving DecidableEq, Repr

/-- Modelled from the spec: the immutable `ActionStatus` record of the
missing Kiss store implementation: which of `before`, `reduce` and `after`
have finished, plus the original error thrown by `before` or `reduce` and
the wrapped error produced by the wrapping stages. -/
structure ActionStatus (E : Type) where
  hasFinishedMethodBefore : Bool
  hasFinishedMethodReduce : Bool
  hasFinishedMethodAfter : Bool
  originalError : Option E
  wrappedError : Option E

variable {S E : Type}

/-- Status of an action that has not been dispatched yet: nothing ran. -/
def ActionStatus.initial : ActionStatus E :=
  { hasFinishedMethodBefore := false
    hasFinishedMethodReduce := false
    hasFinishedMethodAfter := false
    originalError := none
    wrappedError := none }

/-- The action has completed dispatching, with or without errors: its
`after` function already ran. -/
def ActionStatus.isCompleted (st : ActionStatus E) : Bool :=
  st.hasFinishedMethodAfter

/-- The action has completed dispatching without errors: `after` already ran
and neither `before` nor `reduce` threw. -/
def ActionStatus.isCompletedOk (st : ActionStatus E) : Bool :=
  st.hasFinishedMethodAfter && st.originalError.isNone

/-- The action has completed dispatching with errors: `after` already ran
and `before` or `reduce` threw. -/
def ActionStatus.isCompletedFailed (st : ActionStatus E) : Bool :=
  st.hasFinishedMethodAfter && st.originalError.isSome

/-- Status after `before` finished and nothing else ran. -/
def beforeDoneStatus : ActionStatus E :=
  { ActionStatus.initial with hasFinishedMethodBefore := true }

/-- Status after `before` and `reduce` finished but `after` did not run yet. -/
def reduceDoneStatus : ActionStatus E :=
  { beforeDoneStatus with hasFinishedMethodReduce := true }

/-- Final status of a dispatch in which no error was thrown. -/
def okDoneStatus : ActionStatus E :=
  { reduceDoneStatus with hasFinishedMethodAfter := true }

/-- Modelled from the spec: outcome of the error pipeline of the missing
Kiss store implementation for one error `e` thrown by `before` or `reduce`:
the wrapped error recorded on the status, the error rethrown to the caller
(if any), and the pipeline stages that ran, in order. -/
structure ErrorOutcome (E : Type) where
  wrappedError : Option E
  thrown : Option E
  events : List Event

/-- Last stage of the error pipeline: the `errorObserver` gets the final
error `e2` and decides whether it is rethrown (`true`) or swallowed
(`false`). -/
def processErrorObserve (cfg : StoreConfig S E) (e2 : E) : ErrorOutcome E :=
  { wrappedError := some e2
    thrown := if cfg.errorObserver e2 then some e2 else none
    events := [Event.wrapErrorCalled, Event.globalWrapErrorCalled,
               Event.errorObserverCalled] }

/-- Stages of the error pipeline from `globalWrapError` on, applied to the
error `e1` that survived the local `wrapError` stage of the action. -/
def processErrorGlobal (cfg : StoreConfig S E) (e1 : E) : ErrorOutcome E :=
  match cfg.globalWrapError e1 with
  | WrapResult.swallow =>
      { wrappedError := some e1
        thrown := none
        events := [Event.wrapErrorCalled, Event.globalWrapErrorCalled] }
  | WrapResult.keep => processErrorObserve cfg e1
  | WrapResult.replace e2 => processErrorObserve cfg e2

/-- Modelled from the spec: the error pipeline of the missing Kiss store
implementation. The local `wrapError` of the action runs first; if it
swallows, nothing further runs and no error is reported. Otherwise
`globalWrapError` runs on the (possibly replaced) error; if it swallows,
nothing further runs. Otherwise `errorObserver` runs on the final error and
decides whether it is rethrown (`true`) or swallowed (`false`). -/
def processError (cfg : StoreConfig S E) (a : Action S E) (e : E) :
    ErrorOutcome E :=
  match a.wrapError e with
  | WrapResult.swallow =>
      { wrappedError := none
        thrown := none
        events := [Event.wrapErrorCalled] }
  | WrapResult.keep => processErrorGlobal cfg e
  | WrapResult.replace e1 => processErrorGlobal cfg e1

/-- Final status of a dispatch in which `before` or `reduce` threw `e`;
`beforeDone` records whether `before` finished (that is, whether the error
came from `reduce`). The `after` function still ran. -/
def failedStatus (cfg : StoreConfig S E) (a : Action S E) (beforeDone : Bool)
    (e : E) : ActionStatus E :=
  { hasFinishedMethodBefore := beforeDone
    hasFinishedMethodReduce := false
    hasFinishedMethodAfter := true
    originalError := some e
    wrappedError := (processError cfg a e).wrappedError }

/-- Errors that the dispatch only logs: an error thrown by `after` is
swallowed and logged, never propagated. -/
def afterLog (a : Action S E) : List E :=
  match a.after with
  | Except.ok _ => []
  | Except.error e => [e]

/-- Modelled from the spec: everything observable about one dispatch of the
missing Kiss store implementation: the resulting store state, the final
status of the action, the trace of hooks and error stages that ran, the
error rethrown to the caller (if any), the errors that were only logged,
whether the dispatch needed to suspend (some executed hook returned a
pending computation), and the successive status snapshots of the action. -/
structure DispatchResult (S E : Type) where
  state : S
  status : ActionStatus E
  trace : List Event
  thrown : Option E
  log : List E
  suspended : Bool
  statusHistory : List (ActionStatus E)

/-- Modelled from the spec: the action lifecycle runner of the missing Kiss
store implementation. It calls `before`; if `before` throws, `reduce` is
skipped, `after` still runs, and the error goes through the pipeline. If
`before` succeeds, it calls `reduce`; if `reduce` throws, the state is not
modified, `after` still runs, and the error goes through the pipeline. If
`reduce` succeeds, its result is applied (no change when it returns `none`)
and `after` runs. An error thrown by `after` is swallowed and only logged. -/
def run (cfg : StoreConfig S E) (a : Action S E) (s : S) :
    DispatchResult S E :=
  match (a.before s).val with
  | Except.error e =>
      { state := s
        status := failedStatus cfg a false e
        trace := [Event.beforeCalled, Event.afterCalled] ++
                 (processError cfg a e).events
        thrown := (processError cfg a e).thrown
        log := afterLog a
        suspended := (a.before s).pending
        statusHistory := [ActionStatus.initial, failedStatus cfg a false e] }
  | Except.ok _ =>
      match (a.reduce s).val with
      | Except.error e =>
          { state := s
            status := failedStatus cfg a true e
            trace := [Event.beforeCalled, Event.reduceCalled,
                      Event.afterCalled] ++ (processError cfg a e).events
            thrown := (processError cfg a e).thrown
            log := afterLog a
            suspended := (a.before s).pending || (a.reduce s).pending
            statusHistory := [ActionStatus.initial, beforeDoneStatus,
                              failedStatus cfg a true e] }
      | Except.ok res =>
          { state := res.getD s
            status := okDoneStatus
            trace := [Event.beforeCalled, Event.reduceCalled,
                      Event.afterCalled]
            thrown := none
            log := afterLog a
            suspended := (a.before s).pending || (a.reduce s).pending
            statusHistory := [ActionStatus.initial, beforeDoneStatus,
                              reduceDoneStatus, okDoneStatus] }

/-- Modelled from the spec: `dispatch` of the missing Kiss store
implementation. If `abortDispatch` returns `true` the action is not
dispatched at all: `before`, `reduce` and `after` are not called and the
state is unchanged. Otherwise the lifecycle runner executes the action. -/
def dispatch (cfg : StoreConfig S E) (a : Action S E) (s : S) :
    DispatchResult S E :=
  if a.abortDispatch s then
    { state := s
      status := ActionStatus.initial
      trace := []
      thrown := none
      log := []
      suspended := false
      statusHistory := [ActionStatus.initial] }
  else run cfg a s

/-- Modelled from the spec: `dispatchAndWait` of the missing Kiss store
implementation. The caller suspends until the whole lifecycle finished, so
in this sequential model it observes exactly the dispatch result; the value
it resolves with is the `status` field of that result. -/
def dispatchAndWait (cfg : StoreConfig S E) (a : Action S E) (s : S) :
    DispatchResult S E :=
  dispatch cfg a s

/-- Modelled from the spec: the error thrown by `dispatchSync` of the
missing Kiss store implementation when the action turns out to be
asynchronous. -/
inductive StoreException where
  | actionIsAsync : StoreException
  deriving DecidableEq, Repr

/-- The dispatch needs to suspend: `before` returned a pending computation,
or `before` succeeded and `reduce` returned a pending computation. -/
def requiresSuspension (a : Action S E) (s : S) : Bool :=
  (a.before s).pending ||
    (match (a.before s).val with
     | Except.ok _ => (a.reduce s).pending
     | Except.error _ => false)

/-- Modelled from the spec: `dispatchSync` of the missing Kiss store
implementation. It behaves exactly like `dispatch`, except that it throws a
`StoreException` if the action turns out to require suspension, that is, if
an executed `before` or `reduce` returned a pending computation. -/
def dispatchSync (cfg : StoreConfig S E) (a : Action S E) (s : S) :
    Except StoreException (DispatchResult S E) :=
  if (dispatch cfg a s).suspended then Except.error StoreException.actionIsAsync
  else Except.ok (dispatch cfg a s)

/-- Modelled from the spec: the default timeout of the wait functions of the
missing Kiss store implementation, in milliseconds (10 minutes). -/
def defaultTimeoutMillis : Int := 600000

/-- Modelled from the spec: how a call to `waitCondition` of the missing
Kiss store implementation can end. `resolvedAt i` means the promise resolved
when the store state at position `i` of the observed run first satisfied the
condition (position 0 is the state at call time); `timedOut` means the
timeout fired a timeout-kind error; `stillPending` means the condition was
never met and the timeout was disabled, so the promise never settled. -/
inductive WaitOutcome where
  | resolvedAt : Nat → WaitOutcome
  | timedOut : WaitOutcome
  | stillPending : WaitOutcome
  deriving DecidableEq, Repr

/-- Index of the first state of the list satisfying the condition. -/
def firstHold (pred : S → Bool) : List S → Option Nat
  | [] => none
  | s :: rest =>
      if pred s then some 0 else (firstHold pred rest).map (· + 1)

/-- Modelled from the spec: `waitCondition` of the missing Kiss store
implementation, evaluated over one observed run: `s0` is the store state at
call time and `transitions` are the successive states produced by later
state transitions. If the condition already holds at call time the promise
resolves immediately; otherwise it resolves at the first subsequent state
satisfying the condition; if the condition is never met, a positive timeout
fires a timeout-kind error, while a timeout of zero or a negative timeout
disables the timeout so the promise stays pending. -/
def waitCondition (pred : S → Bool) (timeoutMillis : Int) (s0 : S)
    (transitions : List S) : WaitOutcome :=
  if pred s0 then WaitOutcome.resolvedAt 0
  else
    match firstHold pred transitions with
    | some i => WaitOutcome.resolvedAt (i + 1)
    | none =>
        if timeoutMillis ≤ 0 then WaitOutcome.stillPending
        else WaitOutcome.timedOut

/-- An event belongs to the error pipeline (as opposed to the lifecycle
hooks `before`, `reduce` and `after`). -/
def isErrorStageEvent : Event → Bool
  | Event.wrapErrorCalled => true
  | Event.globalWrapErrorCalled => true
  | Event.errorObserverCalled => true
  | Event.beforeCalled => false
  | Event.reduceCalled => false
  | Event.afterCalled => false

/-- Concrete sample action over `Nat` states and `Nat` errors: nothing
aborts, nothing throws, the reducer returns the new state `5`. -/
def okAction : Action Nat Nat :=
  { abortDispatch := fun _ => false
    before := fun _ => { pending := false, val := Except.ok () }
    reduce := fun _ => { pending := false, val := Except.ok (some 5) }
    after := Except.ok ()
    wrapError := fun _ => WrapResult.keep }

/-- Sample action whose reducer returns `none` (no change). -/
def noChangeAction : Action Nat Nat :=
  { okAction with reduce := fun _ => { pending := false, val := Except.ok none } }

/-- Sample action whose `before` throws the error `7`. -/
def beforeFailsAction : Action Nat Nat :=
  { okAction with before := fun _ => { pending := false, val := Except.error 7 } }

/-- Sample action whose `reduce` throws the error `8`. -/
def reduceFailsAction : Action Nat Nat :=
  { okAction with reduce := fun _ => { pending := false, val := Except.error 8 } }

/-- Sample action whose `after` throws the error `9`. -/
def afterFailsAction : Action Nat Nat :=
  { okAction with after := Except.error 9 }

/-- Sample action whose `before` throws `7` and whose `wrapError` swallows
every error. -/
def swallowAction : Action Nat Nat :=
  { beforeFailsAction with wrapError := fun _ => WrapResult.swallow }

/-- Sample action whose `abortDispatch` always returns `true`. -/
def abortingAction : Action Nat Nat :=
  { okAction with abortDispatch := fun _ => true }

/-- Sample action whose `reduce` returns a pending computation (a Promise). -/
def pendingReduceAction : Action Nat Nat :=
  { okAction with reduce := fun _ => { pending := true, val := Except.ok (some 5) } }

/-- Sample store configuration that keeps every error and whose observer
lets every error rethrow. -/
def plainConfig : StoreConfig Nat Nat :=
  { globalWrapError := fun _ => WrapResult.keep
    errorObserver := fun _ => true }

/-- Sample store configuration whose `errorObserver` returns `false`,
swallowing every surviving error. -/
def observerFalseConfig : StoreConfig Nat Nat :=
  { plainConfig with errorObserver := fun _ => false }

theorem processErrorObserve_events (cfg : StoreConfig S E) (e2 : E) :
    (processErrorObserve cfg e2).events =
      [Event.wrapErrorCalled, Event.globalWrapErrorCalled,
       Event.errorObserverCalled] := rfl

theorem processErrorGlobal_events_shape (cfg : StoreConfig S E) (e1 : E) :
    (processErrorGlobal cfg e1).events =
        [Event.wrapErrorCalled, Event.globalWrapErrorCalled] ∨
    (processErrorGlobal cfg e1).events =
        [Event.wrapErrorCalled, Event.globalWrapErrorCalled,
         Event.errorObserverCalled] := by
  unfold processErrorGlobal
  cases cfg.globalWrapError e1 with
  | keep => right; exact processErrorObserve_events cfg e1
  | replace e2 => right; exact processErrorObserve_events cfg e2
  | swallow => left; rfl

theorem processError_events_shape (cfg : StoreConfig S E) (a : Action S E)
    (e : E) :
    (processError cfg a e).events = [Event.wrapErrorCalled] ∨
    (processError cfg a e).events =
        [Event.wrapErrorCalled, Event.globalWrapErrorCalled] ∨
    (processError cfg a e).events =
        [Event.wrapErrorCalled, Event.globalWrapErrorCalled,
         Event.errorObserverCalled] := by
  unfold processError
  cases a.wrapError e with
  | keep => exact Or.inr (processErrorGlobal_events_shape cfg e)
  | replace e1 => exact Or.inr (processErrorGlobal_events_shape cfg e1)
  | swallow => left; rfl

theorem processError_events_no_afterCalled (cfg : StoreConfig S E)
    (a : Action S E) (e : E) :
    Event.afterCalled ∉ (processError cfg a e).events := by
  rcases processError_events_shape cfg a e with h | h | h <;> rw [h] <;> decide

theorem processError_events_no_reduceCalled (cfg : StoreConfig S E)
    (a : Action S E) (e : E) :
    Event.reduceCalled ∉ (processError cfg a e).events := by
  rcases processError_events_shape cfg a e with h | h | h <;> rw [h] <;> decide

theorem processError_events_all_stage (cfg : StoreConfig S E)
    (a : Action S E) (e : E) :
    ∀ ev ∈ (processError cfg a e).events, isErrorStageEvent ev = true := by
  rcases processError_events_shape cfg a e with h | h | h <;> rw [h] <;> decide

theorem processError_events_filter (cfg : StoreConfig S E) (a : Action S E)
    (e : E) :
    (processError cfg a e).events.filter isErrorStageEvent =
      (processError cfg a e).events :=
  List.filter_eq_self.mpr (processError_events_all_stage cfg a e)

theorem processErrorGlobal_observer_false (cfg : StoreConfig S E) (e1 e2 : E)
    (hw : (processErrorGlobal cfg e1).wrappedError = some e2)
    (hfalse : cfg.errorObserver e2 = false) :
    (processErrorGlobal cfg e1).thrown = none := by
  unfold processErrorGlobal at hw ⊢
  cases hg : cfg.globalWrapError e1 with
  | swallow => rfl
  | keep =>
      rw [hg] at hw
      have hsome : some e1 = some e2 := hw
      have h12 : e1 = e2 := Option.some.inj hsome
      show (processErrorObserve cfg e1).thrown = none
      rw [h12]
      simp [processErrorObserve, hfalse]
  | replace e3 =>
      rw [hg] at hw
      have hsome : some e3 = some e2 := hw
      have h32 : e3 = e2 := Option.some.inj hsome
      show (processErrorObserve cfg e3).thrown = none
      rw [h32]
      simp [processErrorObserve, hfalse]

theorem processError_observer_false (cfg : StoreConfig S E) (a : Action S E)
    (e e2 : E)
    (hw : (processError cfg a e).wrappedError = some e2)
    (hfalse : cfg.errorObserver e2 = false) :
    (processError cfg a e).thrown = none := by
  unfold processError at hw ⊢
  cases hwr : a.wrapError e with
  | swallow => rfl
  | keep =>
      rw [hwr] at hw
      exact processErrorGlobal_observer_false cfg e e2 hw hfalse
  | replace e1 =>
      rw [hwr] at hw
      exact processErrorGlobal_observer_false cfg e1 e2 hw hfalse

theorem firstHold_spec (pred : S → Bool) :
    ∀ (l : List S) (i : Nat), firstHold pred l = some i →
      ∃ si, l.get? i = some si ∧ pred si = true ∧
        ∀ j sj, j < i → l.get? j = some sj → pred sj = false := by
  intro l
  induction l with
  | nil => intro i h; simp [firstHold] at h
  | cons s rest ih =>
      intro i h
      by_cases hp : pred s
      · rw [firstHold, if_pos hp] at h
        cases h
        exact ⟨s, rfl, hp, fun j sj hj => absurd hj (Nat.not_lt_zero j)⟩
      · rw [firstHold, if_neg hp] at h
        rcases Option.map_eq_some'.mp h with ⟨k, hk, rfl⟩
        rcases ih k hk with ⟨si, hget, hpsi, hbefore⟩
        refine ⟨si, hget, hpsi, ?_⟩
        intro j sj hj hgj
        cases j with
        | zero =>
            cases hgj
            exact Bool.eq_false_iff.mpr hp
        | succ j =>
            exact hbefore j sj (Nat.lt_of_succ_lt_succ hj) hgj

theorem firstHold_isSome (pred : S → Bool) :
    ∀ (l : List S), (∃ u ∈ l, pred u = true) → ∃ i, firstHold pred l = some i := by
  intro l
  induction l with
  | nil => rintro ⟨u, hu, _⟩; exact absurd hu (List.not_mem_nil u)
  | cons s rest ih =>
      rintro ⟨u, hu, hpu⟩
      by_cases hp : pred s
      · exact ⟨0, by rw [firstHold, if_pos hp]⟩
      · rcases List.mem_cons.mp hu with rfl | hmem
        · exact absurd hpu (by simpa using hp)
        · rcases ih ⟨u, hmem, hpu⟩ with ⟨k, hk⟩
          exact ⟨k + 1, by rw [firstHold, if_neg hp, hk]; rfl⟩

theorem firstHold_eq_none (pred : S → Bool) :
    ∀ (l : List S), (∀ u ∈ l, pred u = false) → firstHold pred l = none := by
  intro l
  induction l with
  | nil => intro _; rfl
  | cons s rest ih =>
      intro h
      rw [firstHold, if_neg (by simp [h s (List.mem_cons_self s rest)]),
        ih (fun u hu => h u (List.mem_cons_of_mem s hu))]
      rfl

theorem run_beforeError (cfg : StoreConfig S E) (a : Action S E) (s : S)
    (e : E) (hb : (a.before s).val = Except.error e) :
    run cfg a s =
      { state := s
        status := failedStatus cfg a false e
        trace := [Event.beforeCalled, Event.afterCalled] ++
                 (processError cfg a e).events
        thrown := (processError cfg a e).thrown
        log := afterLog a
        suspended := (a.before s).pending
        statusHistory := [ActionStatus.initial, failedStatus cfg a false e] } := by
  unfold run
  rw [hb]

theorem run_reduceError (cfg : StoreConfig S E) (a : Action S E) (s : S)
    (e : E) (hb : (a.before s).val = Except.ok ())
    (hr : (a.reduce s).val = Except.error e) :
    run cfg a s =
      { state := s
        status := failedStatus cfg a true e
        trace := [Event.beforeCalled, Event.reduceCalled,
                  Event.afterCalled] ++ (processError cfg a e).events
        thrown := (processError cfg a e).thrown
        log := afterLog a
        suspended := (a.before s).pending || (a.reduce s).pending
        statusHistory := [ActionStatus.initial, beforeDoneStatus,
                          failedStatus cfg a true e] } := by
  unfold run
  rw [hb, hr]

theorem run_ok (cfg : StoreConfig S E) (a : Action S E) (s : S)
    (res : Option S) (hb : (a.before s).val = Except.ok ())
    (hr : (a.reduce s).val = Except.ok res) :
    run cfg a s =
      { state := res.getD s
        status := okDoneStatus
        trace := [Event.beforeCalled, Event.reduceCalled, Event.afterCalled]
        thrown := none
        log := afterLog a
        suspended := (a.before s).pending || (a.reduce s).pending
        statusHistory := [ActionStatus.initial, beforeDoneStatus,
                          reduceDoneStatus, okDoneStatus] } := by
  unfold run
  rw [hb, hr]

theorem dispatch_not_aborted (cfg : StoreConfig S E) (a : Action S E) (s : S)
    (habort : a.abortDispatch s = false) :
    dispatch cfg a s = run cfg a s := by
  rw [dispatch, habort]
  rfl

theorem run_suspended_eq (cfg : StoreConfig S E) (a : Action S E) (s : S) :
    (run cfg a s).suspended = requiresSuspension a s := by
  unfold run requiresSuspension
  cases hb : (a.before s).val with
  | error e => simp
  | ok u =>
      cases hr : (a.reduce s).val with
      | error e => rfl
      | ok res => rfl

/-- C1: for every action whose dispatch is not aborted, whose `before`
succeeds and whose `reduce` completes and returns `res`, after
`dispatchAndWait` resolves the status has `isCompletedOk` true and the store
state equals the value `reduce` returned, or is unchanged when `reduce`
returned `none` (no-op). -/
theorem dispatchAndWait_reduce_ok (cfg : StoreConfig S E) (a : Action S E)
    (s : S) (res : Option S)
    (habort : a.abortDispatch s = false)
    (hb : (a.before s).val = Except.ok ())
    (hr : (a.reduce s).val = Except.ok res) :
    (dispatchAndWait cfg a s).status.isCompletedOk = true ∧
    (∀ v, res = some v → (dispatchAndWait cfg a s).state = v) ∧
    (res = none → (dispatchAndWait cfg a s).state = s) := by
  rw [dispatchAndWait, dispatch_not_aborted cfg a s habort,
    run_ok cfg a s res hb hr]
  refine ⟨rfl, ?_, ?_⟩
  · rintro v rfl
    rfl
  · rintro rfl
    rfl

/-- Witness for C1: dispatching the sample action whose reducer returns the
new state `5` from state `0` completes ok and sets the state to `5`. -/
theorem dispatchAndWait_reduce_ok_witness :
    (dispatchAndWait plainConfig okAction 0).status.isCompletedOk = true ∧
    (dispatchAndWait plainConfig okAction 0).state = 5 :=
  ⟨(dispatchAndWait_reduce_ok plainConfig okAction 0 (some 5) rfl rfl rfl).1,
   (dispatchAndWait_reduce_ok plainConfig okAction 0 (some 5) rfl rfl rfl).2.1
     5 rfl⟩

/-- C2: for every dispatched action whose `before` throws, `reduce` is never
executed, the store state is not modified, and the final status has
`isCompletedFailed` true. -/
theorem dispatch_beforeError_skips_reduce (cfg : StoreConfig S E)
    (a : Action S E) (s : S) (e : E)
    (habort : a.abortDispatch s = false)
    (hb : (a.before s).val = Except.error e) :
    Event.reduceCalled ∉ (dispatch cfg a s).trace ∧
    (dispatch cfg a s).state = s ∧
    (dispatch cfg a s).status.isCompletedFailed = true := by
  rw [dispatch_not_aborted cfg a s habort, run_beforeError cfg a s e hb]
  refine ⟨?_, rfl, rfl⟩
  intro hmem
  rcases List.mem_append.mp hmem with h | h
  · exact absurd h (by decide)
  · exact processError_events_no_reduceCalled cfg a e h

/-- Witness for C2: dispatching the sample action whose `before` throws `7`
from state `0` never calls the reducer, keeps the state at `0`, and ends
with `isCompletedFailed` true. -/
theorem dispatch_beforeError_skips_reduce_witness :
    Event.reduceCalled ∉ (dispatch plainConfig beforeFailsAction 0).trace ∧
    (dispatch plainConfig beforeFailsAction 0).state = 0 ∧
    (dispatch plainConfig beforeFailsAction 0).status.isCompletedFailed =
      true :=
  dispatch_beforeError_skips_reduce plainConfig beforeFailsAction 0 7 rfl rfl

/-- C3: for every dispatch that is not aborted, the `after` function runs
exactly once, no matter whether `before` and `reduce` succeeded or threw. -/
theorem dispatch_after_runs_once (cfg : StoreConfig S E) (a : Action S E)
    (s : S) (habort : a.abortDispatch s = false) :
    (dispatch cfg a s).trace.count Event.afterCalled = 1 := by
  rw [dispatch_not_aborted cfg a s habort]
  cases hb : (a.before s).val with
  | error e =>
      rw [run_beforeError cfg a s e hb]
      show ([Event.beforeCalled, Event.afterCalled] ++
        (processError cfg a e).events).count Event.afterCalled = 1
      rw [List.count_append,
        List.count_eq_zero.mpr (processError_events_no_afterCalled cfg a e)]
      decide
  | ok u =>
      cases hr : (a.reduce s).val with
      | error e =>
          rw [run_reduceError cfg a s e hb hr]
          show ([Event.beforeCalled, Event.reduceCalled, Event.afterCalled] ++
            (processError cfg a e).events).count Event.afterCalled = 1
          rw [List.count_append,
            List.count_eq_zero.mpr
              (processError_events_no_afterCalled cfg a e)]
          decide
      | ok res =>
          rw [run_ok cfg a s res hb hr]
          show [Event.beforeCalled, Event.reduceCalled,
            Event.afterCalled].count Event.afterCalled = 1
          decide

/-- Witness for C3: dispatching the sample action whose `reduce` throws `8`
still runs `after` exactly once. -/
theorem dispatch_after_runs_once_witness :
    (dispatch plainConfig reduceFailsAction 0).trace.count Event.afterCalled
      = 1 :=
  dispatch_after_runs_once plainConfig reduceFailsAction 0 rfl

/-- C4: an error thrown by `after` is swallowed and only logged: the
resulting state, status and rethrown error of the dispatch are exactly those
of the same action with a non-throwing `after`, and the error shows up only
in the log. -/
theorem dispatch_afterError_only_logged (cfg : StoreConfig S E)
    (a : Action S E) (s : S) (e : E)
    (habort : a.abortDispatch s = false)
    (ha : a.after = Except.error e) :
    (dispatch cfg a s).state =
      (dispatch cfg { a with after := Except.ok () } s).state ∧
    (dispatch cfg a s).status =
      (dispatch cfg { a with after := Except.ok () } s).status ∧
    (dispatch cfg a s).thrown =
      (dispatch cfg { a with after := Except.ok () } s).thrown ∧
    (dispatch cfg a s).log = [e] ∧
    (dispatch cfg { a with after := Except.ok () } s).log = [] := by
  have habort2 :
      ({ a with after := Except.ok () } : Action S E).abortDispatch s =
        false := habort
  rw [dispatch_not_aborted cfg a s habort,
    dispatch_not_aborted cfg { a with after := Except.ok () } s habort2]
  have hlog : afterLog a = [e] := by rw [afterLog, ha]
  have hlog2 : afterLog ({ a with after := Except.ok () } : Action S E) =
      [] := rfl
  cases hb : (a.before s).val with
  | error eb =>
      rw [run_beforeError cfg a s eb hb,
        run_beforeError cfg { a with after := Except.ok () } s eb hb]
      exact ⟨rfl, rfl, rfl, hlog, hlog2⟩
  | ok u =>
      cases hr : (a.reduce s).val with
      | error er =>
          rw [run_reduceError cfg a s er hb hr,
            run_reduceError cfg { a with after := Except.ok () } s er hb hr]
          exact ⟨rfl, rfl, rfl, hlog, hlog2⟩
      | ok res =>
          rw [run_ok cfg a s res hb hr,
            run_ok cfg { a with after := Except.ok () } s res hb hr]
          exact ⟨rfl, rfl, rfl, hlog, hlog2⟩

/-- Witness for C4: dispatching the sample action whose `after` throws `9`
gives the same state, status and rethrown error as its non-throwing
variant, and the error `9` appears only in the log. -/
theorem dispatch_afterError_only_logged_witness :
    (dispatch plainConfig afterFailsAction 0).state =
      (dispatch plainConfig { afterFailsAction with after := Except.ok () }
        0).state ∧
    (dispatch plainConfig afterFailsAction 0).status =
      (dispatch plainConfig { afterFailsAction with after := Except.ok () }
        0).status ∧
    (dispatch plainConfig afterFailsAction 0).thrown =
      (dispatch plainConfig { afterFailsAction with after := Except.ok () }
        0).thrown ∧
    (dispatch plainConfig afterFailsAction 0).log = [9] ∧
    (dispatch plainConfig { afterFailsAction with after := Except.ok () }
      0).log = [] :=
  dispatch_afterError_only_logged plainConfig afterFailsAction 0 9 rfl rfl

/-- C5: for every error thrown by `before` or `reduce`, the error stages of
the dispatch trace are exactly the pipeline events, and these always run in
the order local `wrapError` first, then `globalWrapError`, then
`errorObserver`; moreover, when the `errorObserver` returns false for the
final error, nothing is rethrown, yet the status has `isCompletedFailed`
true and records the original and the wrapped error. -/
theorem dispatch_error_pipeline_order (cfg : StoreConfig S E)
    (a : Action S E) (s : S) (e : E)
    (habort : a.abortDispatch s = false)
    (herr : (a.before s).val = Except.error e ∨
      ((a.before s).val = Except.ok () ∧
        (a.reduce s).val = Except.error e)) :
    (dispatch cfg a s).trace.filter isErrorStageEvent =
      (processError cfg a e).events ∧
    ((processError cfg a e).events = [Event.wrapErrorCalled] ∨
     (processError cfg a e).events =
       [Event.wrapErrorCalled, Event.globalWrapErrorCalled] ∨
     (processError cfg a e).events =
       [Event.wrapErrorCalled, Event.globalWrapErrorCalled,
        Event.errorObserverCalled]) ∧
    (∀ e2, (processError cfg a e).wrappedError = some e2 →
      cfg.errorObserver e2 = false →
      (dispatch cfg a s).thrown = none ∧
      (dispatch cfg a s).status.isCompletedFailed = true ∧
      (dispatch cfg a s).status.originalError = some e ∧
      (dispatch cfg a s).status.wrappedError = some e2) := by
  rw [dispatch_not_aborted cfg a s habort]
  rcases herr with hb | ⟨hb, hr⟩
  · rw [run_beforeError cfg a s e hb]
    refine ⟨?_, processError_events_shape cfg a e, ?_⟩
    · show ([Event.beforeCalled, Event.afterCalled] ++
        (processError cfg a e).events).filter isErrorStageEvent =
          (processError cfg a e).events
      rw [List.filter_append,
        show List.filter isErrorStageEvent
          [Event.beforeCalled, Event.afterCalled] = ([] : List Event)
          from rfl,
        List.nil_append]
      exact processError_events_filter cfg a e
    · intro e2 hw hfalse
      exact ⟨processError_observer_false cfg a e e2 hw hfalse, rfl, rfl, hw⟩
  · rw [run_reduceError cfg a s e hb hr]
    refine ⟨?_, processError_events_shape cfg a e, ?_⟩
    · show ([Event.beforeCalled, Event.reduceCalled, Event.afterCalled] ++
        (processError cfg a e).events).filter isErrorStageEvent =
          (processError cfg a e).events
      rw [List.filter_append,
        show List.filter isErrorStageEvent
          [Event.beforeCalled, Event.reduceCalled, Event.afterCalled] =
            ([] : List Event) from rfl,
        List.nil_append]
      exact processError_events_filter cfg a e
    · intro e2 hw hfalse
      exact ⟨processError_observer_false cfg a e e2 hw hfalse, rfl, rfl, hw⟩

/-- Witness for C5: with the observer-false configuration, the sample action
whose `reduce` throws `8` rethrows nothing, yet completes failed and records
the original and wrapped error `8`. -/
theorem dispatch_error_pipeline_order_witness :
    (dispatch observerFalseConfig reduceFailsAction 0).thrown = none ∧
    (dispatch observerFalseConfig reduceFailsAction
      0).status.isCompletedFailed = true ∧
    (dispatch observerFalseConfig reduceFailsAction 0).status.originalError =
      some 8 ∧
    (dispatch observerFalseConfig reduceFailsAction 0).status.wrappedError =
      some 8 :=
  (dispatch_error_pipeline_order observerFalseConfig reduceFailsAction 0 8
    rfl (Or.inr ⟨rfl, rfl⟩)).2.2 8 rfl rfl

/-- C6: for an error `e` thrown by `before`, when the local `wrapError`
keeps the error (and the global stages do not change it), the original error
is recorded and rethrown unchanged; when `wrapError` returns the swallow
sentinel, nothing is rethrown, the later pipeline stages never run, and the
action still completes as failed, silently. -/
theorem wrapError_keep_and_swallow (cfg : StoreConfig S E) (a : Action S E)
    (s : S) (e : E)
    (habort : a.abortDispatch s = false)
    (hb : (a.before s).val = Except.error e) :
    ((a.wrapError e = WrapResult.keep ∧
        cfg.globalWrapError e = WrapResult.keep ∧
        cfg.errorObserver e = true) →
      (dispatch cfg a s).status.originalError = some e ∧
      (dispatch cfg a s).status.wrappedError = some e ∧
      (dispatch cfg a s).thrown = some e) ∧
    (a.wrapError e = WrapResult.swallow →
      (dispatch cfg a s).thrown = none ∧
      Event.globalWrapErrorCalled ∉ (dispatch cfg a s).trace ∧
      Event.errorObserverCalled ∉ (dispatch cfg a s).trace ∧
      (dispatch cfg a s).status.isCompleted = true ∧
      (dispatch cfg a s).status.isCompletedFailed = true) := by
  rw [dispatch_not_aborted cfg a s habort, run_beforeError cfg a s e hb]
  constructor
  · rintro ⟨hk, hg, hob⟩
    have h1 : processError cfg a e = processErrorGlobal cfg e := by
      rw [processError, hk]
    have h2 : processErrorGlobal cfg e = processErrorObserve cfg e := by
      rw [processErrorGlobal, hg]
    have h3 : (processErrorObserve cfg e).thrown = some e := by
      rw [processErrorObserve, hob]
      rfl
    refine ⟨rfl, ?_, ?_⟩
    · show (processError cfg a e).wrappedError = some e
      rw [h1, h2]
      rfl
    · show (processError cfg a e).thrown = some e
      rw [h1, h2]
      exact h3
  · intro hsw
    have hth : (processError cfg a e).thrown = none := by
      rw [processError, hsw]
    have hev : (processError cfg a e).events = [Event.wrapErrorCalled] := by
      rw [processError, hsw]
    refine ⟨hth, ?_, ?_, rfl, rfl⟩
    · show Event.globalWrapErrorCalled ∉
        [Event.beforeCalled, Event.afterCalled] ++
          (processError cfg a e).events
      rw [hev]
      decide
    · show Event.errorObserverCalled ∉
        [Event.beforeCalled, Event.afterCalled] ++
          (processError cfg a e).events
      rw [hev]
      decide

/-- Witness for C6: the sample action whose `before` throws `7` and whose
`wrapError` swallows rethrows nothing, never reaches the global stages, and
still completes as failed. -/
theorem wrapError_keep_and_swallow_witness :
    (dispatch plainConfig swallowAction 0).thrown = none ∧
    Event.globalWrapErrorCalled ∉ (dispatch plainConfig swallowAction
      0).trace ∧
    Event.errorObserverCalled ∉ (dispatch plainConfig swallowAction
      0).trace ∧
    (dispatch plainConfig swallowAction 0).status.isCompleted = true ∧
    (dispatch plainConfig swallowAction 0).status.isCompletedFailed = true :=
  (wrapError_keep_and_swallow plainConfig swallowAction 0 7 rfl rfl).2 rfl

/-- C7: `waitCondition` resolves immediately when the condition already
holds at call time; otherwise it resolves exactly at the first subsequent
state transition satisfying the condition; when the condition is never met,
the default timeout fires a timeout-kind error, and a timeout of zero or a
negative timeout disables the timeout so the promise stays pending. -/
theorem waitCondition_resolution (pred : S → Bool) (t : Int) (s0 : S)
    (tr : List S) :
    (pred s0 = true →
      waitCondition pred t s0 tr = WaitOutcome.resolvedAt 0) ∧
    (∀ i, waitCondition pred t s0 tr = WaitOutcome.resolvedAt (i + 1) →
      ∃ si, tr.get? i = some si ∧ pred si = true ∧
        ∀ j sj, j < i → tr.get? j = some sj → pred sj = false) ∧
    ((∃ u ∈ tr, pred u = true) →
      ∃ k, waitCondition pred t s0 tr = WaitOutcome.resolvedAt k) ∧
    ((∀ u ∈ s0 :: tr, pred u = false) →
      waitCondition pred defaultTimeoutMillis s0 tr =
        WaitOutcome.timedOut) ∧
    (t ≤ 0 → (∀ u ∈ s0 :: tr, pred u = false) →
      waitCondition pred t s0 tr = WaitOutcome.stillPending) := by
  refine ⟨?_, ?_, ?_, ?_, ?_⟩
  · intro h
    rw [waitCondition, if_pos h]
  · intro i h
    by_cases hp : pred s0 = true
    · rw [waitCondition, if_pos hp] at h
      exact absurd (WaitOutcome.resolvedAt.inj h) (by omega)
    · rw [waitCondition, if_neg hp] at h
      cases hf : firstHold pred tr with
      | none =>
          rw [hf] at h
          have h2 : (if t ≤ 0 then WaitOutcome.stillPending
              else WaitOutcome.timedOut) = WaitOutcome.resolvedAt (i + 1) := h
          by_cases ht : t ≤ 0
          · rw [if_pos ht] at h2
            exact absurd h2 (by simp)
          · rw [if_neg ht] at h2
            exact absurd h2 (by simp)
      | some k =>
          rw [hf] at h
          have h2 : WaitOutcome.resolvedAt (k + 1) =
              WaitOutcome.resolvedAt (i + 1) := h
          have hk : k = i := by
            have h3 := WaitOutcome.resolvedAt.inj h2
            omega
          subst hk
          exact firstHold_spec pred tr k hf
  · rintro ⟨u, hu, hpu⟩
    by_cases hp : pred s0 = true
    · exact ⟨0, by rw [waitCondition, if_pos hp]⟩
    · rcases firstHold_isSome pred tr ⟨u, hu, hpu⟩ with ⟨k, hk⟩
      refine ⟨k + 1, ?_⟩
      rw [waitCondition, if_neg hp, hk]
  · intro h
    have hp : ¬(pred s0 = true) := by
      simp [h s0 (List.mem_cons_self s0 tr)]
    have hn := firstHold_eq_none pred tr
      (fun u hu => h u (List.mem_cons_of_mem s0 hu))
    rw [waitCondition, if_neg hp, hn]
    show (if defaultTimeoutMillis ≤ 0 then WaitOutcome.stillPending
      else WaitOutcome.timedOut) = WaitOutcome.timedOut
    rw [if_neg (by decide)]
  · intro ht h
    have hp : ¬(pred s0 = true) := by
      simp [h s0 (List.mem_cons_self s0 tr)]
    have hn := firstHold_eq_none pred tr
      (fun u hu => h u (List.mem_cons_of_mem s0 hu))
    rw [waitCondition, if_neg hp, hn]
    show (if t ≤ 0 then WaitOutcome.stillPending else WaitOutcome.timedOut) =
      WaitOutcome.stillPending
    rw [if_pos ht]

/-- Witness for C7: a condition that already holds at call time resolves
immediately, at position zero of the observed run. -/
theorem waitCondition_resolution_witness :
    waitCondition (fun n => n == 0) 5 0 [1, 2] = WaitOutcome.resolvedAt 0 :=
  (waitCondition_resolution (fun n => n == 0) 5 0 [1, 2]).1 rfl

/-- C8: for a dispatch that is not aborted, `dispatchSync` throws a
`StoreException` exactly when the action requires suspension, that is, when
an executed `before` or `reduce` returns a pending computation; otherwise it
behaves exactly like `dispatch`. -/
theorem dispatchSync_throws_iff_async (cfg : StoreConfig S E)
    (a : Action S E) (s : S)
    (habort : a.abortDispatch s = false) :
    (dispatchSync cfg a s = Except.error StoreException.actionIsAsync ↔
      requiresSuspension a s = true) ∧
    (requiresSuspension a s = false →
      dispatchSync cfg a s = Except.ok (dispatch cfg a s)) := by
  have hs : (dispatch cfg a s).suspended = requiresSuspension a s := by
    rw [dispatch_not_aborted cfg a s habort, run_suspended_eq]
  constructor
  · constructor
    · intro h
      by_contra hne
      have hfalse : requiresSuspension a s = false :=
        Bool.eq_false_iff.mpr hne
      rw [dispatchSync, hs, hfalse] at h
      simp at h
    · intro h
      rw [dispatchSync, hs, h]
      rfl
  · intro h
    rw [dispatchSync, hs, h]
    rfl

/-- Witness for C8: the sample action whose `reduce` returns a pending
computation makes `dispatchSync` throw. -/
theorem dispatchSync_throws_iff_async_witness :
    dispatchSync plainConfig pendingReduceAction 0 =
      Except.error StoreException.actionIsAsync :=
  (dispatchSync_throws_iff_async plainConfig pendingReduceAction 0 rfl).1.mpr
    rfl

/-- C9: along the successive status snapshots of any dispatch, completion is
monotone (once a status has `isCompleted` true, every later status has it
true), and every lifecycle transition produces a new status different from
the previous one. -/
theorem statusHistory_monotone (cfg : StoreConfig S E) (a : Action S E)
    (s : S) :
    List.Pairwise
      (fun st1 st2 => st1.isCompleted = true → st2.isCompleted = true)
      (dispatch cfg a s).statusHistory ∧
    List.Chain' (fun st1 st2 => st1 ≠ st2)
      (dispatch cfg a s).statusHistory := by
  by_cases habort : a.abortDispatch s = true
  · have hd : (dispatch cfg a s).statusHistory =
        [ActionStatus.initial] := by
      rw [dispatch, habort]
      rfl
    rw [hd]
    exact ⟨List.pairwise_singleton _ _, List.chain'_singleton _⟩
  · have habort2 : a.abortDispatch s = false := Bool.eq_false_iff.mpr habort
    rw [dispatch_not_aborted cfg a s habort2]
    cases hb : (a.before s).val with
    | error e =>
        rw [run_beforeError cfg a s e hb]
        constructor
        · refine List.Pairwise.cons ?_ (List.pairwise_singleton _ _)
          intro st hst
          rcases List.mem_singleton.mp hst with rfl
          exact fun _ => rfl
        · refine List.chain'_cons.mpr ⟨?_, List.chain'_singleton _⟩
          intro hEq
          have hfield := congrArg ActionStatus.hasFinishedMethodAfter hEq
          simp [ActionStatus.initial, failedStatus] at hfield
    | ok u =>
        cases hr : (a.reduce s).val with
        | error e =>
            rw [run_reduceError cfg a s e hb hr]
            constructor
            · refine List.Pairwise.cons ?_
                (List.Pairwise.cons ?_ (List.pairwise_singleton _ _))
              · intro st hst hini
                have : (ActionStatus.initial : ActionStatus E).isCompleted =
                    true := hini
                simp [ActionStatus.initial, ActionStatus.isCompleted]
                  at this
              · intro st hst
                rcases List.mem_singleton.mp hst with rfl
                exact fun _ => rfl
            · refine List.chain'_cons.mpr ⟨?_, List.chain'_cons.mpr
                ⟨?_, List.chain'_singleton _⟩⟩
              · intro hEq
                have hfield := congrArg ActionStatus.hasFinishedMethodBefore
                  hEq
                simp [ActionStatus.initial, beforeDoneStatus] at hfield
              · intro hEq
                have hfield := congrArg ActionStatus.hasFinishedMethodAfter
                  hEq
                simp [ActionStatus.initial, beforeDoneStatus, failedStatus]
                  at hfield
        | ok res =>
            rw [run_ok cfg a s res hb hr]
            constructor
            · refine List.Pairwise.cons ?_ (List.Pairwise.cons ?_
                (List.Pairwise.cons ?_ (List.pairwise_singleton _ _)))
              · intro st hst hini
                have : (ActionStatus.initial : ActionStatus E).isCompleted =
                    true := hini
                simp [ActionStatus.initial, ActionStatus.isCompleted]
                  at this
              · intro st hst hini
                have : (beforeDoneStatus : ActionStatus E).isCompleted =
                    true := hini
                simp [ActionStatus.initial, beforeDoneStatus,
                  ActionStatus.isCompleted] at this
              · intro st hst
                rcases List.mem_singleton.mp hst with rfl
                exact fun _ => rfl
            · refine List.chain'_cons.mpr ⟨?_, List.chain'_cons.mpr ⟨?_,
                List.chain'_cons.mpr ⟨?_, List.chain'_singleton _⟩⟩⟩
              · intro hEq
                have hfield := congrArg ActionStatus.hasFinishedMethodBefore
                  hEq
                simp [ActionStatus.initial, beforeDoneStatus] at hfield
              · intro hEq
                have hfield := congrArg ActionStatus.hasFinishedMethodReduce
                  hEq
                simp [ActionStatus.initial, beforeDoneStatus,
                  reduceDoneStatus] at hfield
              · intro hEq
                have hfield := congrArg ActionStatus.hasFinishedMethodAfter
                  hEq
                simp [ActionStatus.initial, beforeDoneStatus,
                  reduceDoneStatus, okDoneStatus] at hfield

/-- C10: for every dispatched action whose `abortDispatch` returns true, the
action is not run at all: none of `before`, `reduce` or `after` is called,
and the store state is unchanged by that dispatch. -/
theorem dispatch_aborted_runs_nothing (cfg : StoreConfig S E)
    (a : Action S E) (s : S) (habort : a.abortDispatch s = true) :
    (dispatch cfg a s).trace = [] ∧
    Event.beforeCalled ∉ (dispatch cfg a s).trace ∧
    Event.reduceCalled ∉ (dispatch cfg a s).trace ∧
    Event.afterCalled ∉ (dispatch cfg a s).trace ∧
    (dispatch cfg a s).state = s := by
  have hd : dispatch cfg a s =
      { state := s
        status := ActionStatus.initial
        trace := []
        thrown := none
        log := []
        suspended := false
        statusHistory := [ActionStatus.initial] } := by
    rw [dispatch, habort]
    rfl
  rw [hd]
  exact ⟨rfl, List.not_mem_nil Event.beforeCalled,
    List.not_mem_nil Event.reduceCalled, List.not_mem_nil Event.afterCalled,
    rfl⟩

/-- Witness for C10: dispatching the sample always-aborting action from
state `0` calls nothing and leaves the state at `0`. -/
theorem dispatch_aborted_runs_nothing_witness :
    (dispatch plainConfig abortingAction 0).trace = [] ∧
    Event.beforeCalled ∉ (dispatch plainConfig abortingAction 0).trace ∧
    Event.reduceCalled ∉ (dispatch plainConfig abortingAction 0).trace ∧
    Event.afterCalled ∉ (dispatch plainConfig abortingAction 0).trace ∧
    (dispatch plainConfig abortingAction 0).state = 0 :=
  dispatch_aborted_runs_nothing plainConfig abortingAction 0 rfl

end Kiss
